import Mathlib

set_option autoImplicit false

/- Verification of the FlBasicMessageChannel design: a named, codec-typed
message channel layered over a byte-oriented transport.  The public header
src/engine/src/flutter/shell/platform/linux/public/flutter_linux/fl_basic_message_channel.h
only declares the operations; the behavioural contracts (encode/decode
framing, single-use response handles, pending-send resolution, handler
registration) are modelled here from the design document and the specified
properties are proved about the model. -/

/-- Modelled from the spec: the message codec interface of section 6 (the
concrete codec implementations are external collaborators, not part of this
fragment).  Values of type `V` are converted to and from opaque byte buffers
of type `B`; encoding is total on well-formed values, decoding may fail with
a decode error. -/
structure Codec (V B : Type) where
  encode : V → B
  decode : B → Except String V

/-- Modelled from the spec: the round-trip contract sections 6 and 8 impose
on every codec: decoding an encoding yields the original value back. -/
def Codec.RoundTrip {V B : Type} (c : Codec V B) : Prop :=
  ∀ v : V, c.decode (c.encode v) = Except.ok v

/-- The identity codec used by the echo scenario of section 8: a value is
its own byte encoding and decoding never fails. -/
def identityCodec : Codec String String :=
  { encode := fun v => v, decode := fun b => Except.ok b }

/-- A codec on strings that rejects the empty buffer, exercising the
decode-failure path of the completion contract. -/
def nonEmptyStringCodec : Codec String String :=
  { encode := fun v => v,
    decode := fun b => if b = "" then Except.error "empty buffer" else Except.ok b }

/-- Modelled from the spec: the error taxonomy of section 7. -/
inductive ChannelError where
  | encodeError (msg : String)
  | decodeError (msg : String)
  | handleAlreadyRedeemed
  | transportError (msg : String)
  | cancelled
  deriving DecidableEq

/-- Response handles are opaque transport state (section 3): the channel
layer never constructs or inspects them, only forwards them.  Modelled as
tokens. -/
abbrev ResponseHandle := Nat

/-- Modelled from the spec: the transport-side state the respond path
touches (the channel implementation behind the header is not part of this
fragment): the handles already redeemed, and the reply buffers the transport
has accepted, each paired with the handle it completes. -/
structure RespondState (B : Type) where
  redeemed : List ResponseHandle
  replies : List (ResponseHandle × Option B)
  deriving DecidableEq

/-- Modelled from the spec: `fl_basic_message_channel_respond` (section 4.2);
the implementation behind the declaration at line 146 of the header is not
part of this fragment.  Encodes the optional message (none encodes to an
absent payload) and redeems the handle through the transport.  A handle
already redeemed fails with `HandleAlreadyRedeemed`; a reply the transport
refuses fails with `TransportError`; only a successful redemption marks the
handle redeemed and hands the reply bytes to the transport. -/
def fl_basic_message_channel_respond {V B : Type} (c : Codec V B)
    (transportAccepts : Bool) (st : RespondState B) (h : ResponseHandle)
    (message : Option V) : Except ChannelError Unit × RespondState B :=
  if h ∈ st.redeemed then
    (Except.error ChannelError.handleAlreadyRedeemed, st)
  else if transportAccepts then
    (Except.ok (),
      { redeemed := h :: st.redeemed,
        replies := st.replies ++ [(h, message.map c.encode)] })
  else
    (Except.error (ChannelError.transportError "transport rejected reply"), st)

/-- Modelled from the spec: the resolution state of a Pending Send Operation
(section 3): still awaiting the transport, or resolved to an outcome. -/
inductive SendStatus (A : Type) where
  | pending
  | resolved (outcome : Except ChannelError A)

/-- Modelled from the spec: a Pending Send Operation (section 3): the
caller's optional completion callback (an opaque token of type `C`), the
resolution status, and the log of callback invocations actually performed,
each recording the callback and the outcome it was given. -/
structure PendingOp (A C : Type) where
  callback : Option C
  status : SendStatus A
  invocations : List (C × Except ChannelError A)

/-- Modelled from the spec: resolving a pending send (sections 4.3 and 5).
Resolution fires only on a pending operation — on an already-resolved
operation it is a no-op, never a double invocation of the continuation.
When a callback is registered it is invoked exactly once with the outcome;
a null callback discards the outcome. -/
def resolvePending {A C : Type} (r : Except ChannelError A) (p : PendingOp A C) :
    PendingOp A C :=
  match p.status with
  | SendStatus.pending =>
      { callback := p.callback,
        status := SendStatus.resolved r,
        invocations := p.invocations ++
          (match p.callback with
           | some cb => [(cb, r)]
           | none => []) }
  | SendStatus.resolved _ => p

/-- Modelled from the spec: the send-completion operation of section 4.3,
declared (under an inconsistent name) at line 180 of the header; its body is
not part of this fragment.  A transport error propagates verbatim; transport
success with no reply bytes resolves to the no-reply sentinel; transport
success with reply bytes decodes them exactly once, a decode failure
surfacing as a `DecodeError` outcome for the awaiting caller. -/
def fl_basic_message_channel_send_on_channel_finish {V B : Type} (c : Codec V B)
    (result : Except ChannelError (Option B)) : Except ChannelError (Option V) :=
  match result with
  | Except.error e => Except.error e
  | Except.ok none => Except.ok none
  | Except.ok (some bytes) =>
      match c.decode bytes with
      | Except.ok v => Except.ok (some v)
      | Except.error msg => Except.error (ChannelError.decodeError msg)

/-- Modelled from the spec: `fl_basic_message_channel_send` (section 4.3);
the implementation behind the declaration at line 163 of the header is not
part of this fragment.  Encodes the message, appends the bytes tagged with
the channel name to the transport outbox, and creates a pending operation
holding the caller's optional completion callback. -/
def fl_basic_message_channel_send {V B C : Type} (c : Codec V B) (name : String)
    (message : V) (callback : Option C) (outbox : List (String × B)) :
    List (String × B) × PendingOp (Option V) C :=
  (outbox ++ [(name, c.encode message)],
   { callback := callback, status := SendStatus.pending, invocations := [] })

/-- Modelled from the spec: the cancellation token of a pending send firing
(section 4.3): resolves the operation to a `Cancelled` error if it is still
pending, and otherwise does nothing. -/
def cancelPendingSend {A C : Type} (p : PendingOp A C) : PendingOp A C :=
  resolvePending (Except.error ChannelError.cancelled) p

/-- Modelled from the spec: the transport completing a send (sections 4.3
and 5): the transport outcome goes through the completion operation and
resolves the operation if it is still pending; delivery into an
already-resolved (for example cancelled) operation is a no-op. -/
def deliverTransportResult {V B C : Type} (c : Codec V B)
    (result : Except ChannelError (Option B)) (p : PendingOp (Option V) C) :
    PendingOp (Option V) C :=
  resolvePending (fl_basic_message_channel_send_on_channel_finish c result) p

/-- Modelled from the spec: the concrete echo scenario of section 8, run end
to end through the model operations: send encodes the value and hands the
tagged bytes to the transport; the remote side decodes them and invokes the
echo handler, which responds with the very message it received through its
response handle; the transport completes the pending send with the reply
bytes. -/
def echoRoundTrip (message : String) : SendStatus (Option String) :=
  let sent := fl_basic_message_channel_send identityCodec "echo" message
      (some 0) ([] : List (String × String))
  match sent.1 with
  | [] => sent.2.status
  | (_, bytes) :: _ =>
      match identityCodec.decode bytes with
      | Except.error _ => sent.2.status
      | Except.ok v =>
          let responded := fl_basic_message_channel_respond identityCodec true
              ⟨[], []⟩ 0 (some v)
          match responded.2.replies with
          | [] => sent.2.status
          | (_, replyBytes) :: _ =>
              (deliverTransportResult identityCodec (Except.ok replyBytes) sent.2).status

/-- Modelled from the spec: the transport's per-name callback table
(section 6, the register and unregister operations of the Transport
interface): an association list from channel names to the registered
handler, handlers being opaque to the table. -/
abbrev HandlerTable (H : Type) := List (String × H)

/-- Modelled from the spec: clearing every registration a name holds in the
table (at most one in a well-formed table, but defined on any table). -/
def removeName {H : Type} (name : String) : HandlerTable H → HandlerTable H
  | [] => []
  | e :: rest =>
      if e.1 = name then removeName name rest else e :: removeName name rest

/-- The registration a name currently holds in the table. -/
def lookupName {H : Type} (name : String) : HandlerTable H → Option H
  | [] => none
  | e :: rest => if e.1 = name then some e.2 else lookupName name rest

/-- The number of registrations a name holds in the table. -/
def countName {H : Type} (name : String) : HandlerTable H → Nat
  | [] => 0
  | e :: rest => (if e.1 = name then 1 else 0) + countName name rest

/-- Modelled from the spec: `fl_basic_message_channel_set_message_handler`
(section 4.1); the implementation behind the declaration at line 127 of the
header is not part of this fragment.  Atomically replaces the inbound
handler registered for the channel's name on the transport: a handler
replaces (and silently discards) any previous registration; none unregisters
delivery for the name. -/
def fl_basic_message_channel_set_message_handler {H : Type} (name : String)
    (handler : Option H) (t : HandlerTable H) : HandlerTable H :=
  match handler with
  | some h => (name, h) :: removeName name t
  | none => removeName name t

/-- Modelled from the spec: inbound dispatch of one message (section 4.1):
the current handler is read fresh from the table at dispatch time; with a
handler registered the message is decoded and delivered to it (a decode
failure is delivered as an error value), with none registered there is no
application-level invocation. -/
def dispatchMessage {V B H : Type} (c : Codec V B) (name : String)
    (t : HandlerTable H) (bytes : B) : Option (H × Except String V) :=
  match lookupName name t with
  | none => none
  | some h => some (h, c.decode bytes)

/-- The channel object: an immutable name bound to a codec (section 3); the
transport is referenced, not owned, so it is no field of the record. -/
structure FlBasicMessageChannel (V B : Type) where
  name : String
  codec : Codec V B

/-- Modelled from the spec: `fl_basic_message_channel_new` (section 4.1);
the implementation behind the declaration at line 113 of the header is not
part of this fragment.  Constructs a channel bound to the given name and
codec; the design-level precondition rejects an empty name (invalid codec or
transport references cannot arise in this embedding, where every value is
well-formed); the transport's per-name callback table is passed through
untouched. -/
def fl_basic_message_channel_new {V B H : Type} (t : HandlerTable H)
    (name : String) (codec : Codec V B) :
    Option (FlBasicMessageChannel V B) × HandlerTable H :=
  if name = "" then (none, t)
  else (some { name := name, codec := codec }, t)

/-- Modelled from the spec: the serialized inbound dispatch stream of
section 5, restricted to one channel name: the transport's receive queue in
arrival order, and the log of handler invocations performed so far. -/
structure InboundState (B V H : Type) where
  queue : List B
  log : List (H × Except String V)

/-- Modelled from the spec: one turn of the dispatch stream: the front
message of the receive queue is dispatched through the current table. -/
def inboundStep {V B H : Type} (c : Codec V B) (name : String)
    (t : HandlerTable H) (st : InboundState B V H) : InboundState B V H :=
  match st.queue with
  | [] => st
  | bytes :: rest =>
      { queue := rest,
        log := st.log ++
          (match dispatchMessage c name t bytes with
           | none => []
           | some entry => [entry]) }

/-- Modelled from the spec: running the dispatch stream for a number of
turns; deliveries are serialized, one inbound message per turn. -/
def inboundRun {V B H : Type} (c : Codec V B) (name : String)
    (t : HandlerTable H) : Nat → InboundState B V H → InboundState B V H
  | 0, st => st
  | n + 1, st => inboundRun c name t n (inboundStep c name t st)

/-- The five function declarations of fl_basic_message_channel.h, in
declaration order (lines 113, 127, 146, 163 and 180 of the header). -/
def headerDeclaredFunctions : List String :=
  ["fl_basic_message_channel_new",
   "fl_basic_message_channel_set_message_handler",
   "fl_basic_message_channel_respond",
   "fl_basic_message_channel_send",
   "fl_basic_message_channel_send_on_channel_finish"]

/-- The name under which the doc comment block at lines 169 to 179 of the
header documents the send-completion operation. -/
def finishDocCommentName : String := "fl_basic_message_channel_send_finish"

/-- The name the usage example in the header (message_response_cb, line 53)
invokes to complete an asynchronous send. -/
def finishUsageExampleName : String := "fl_basic_message_channel_send_finish"

/-- A declared operation is a send-completion operation when its name ends
in the finish suffix of the GAsyncResult completion convention the header
follows. -/
def isFinishDeclaration (s : String) : Bool :=
  List.isSuffixOf "finish".toList s.toList

/-- Clearing a name leaves no registration for it to look up. -/
theorem lookupName_removeName {H : Type} (name : String) (t : HandlerTable H) :
    lookupName name (removeName name t) = none := by
  induction t with
  | nil => rfl
  | cons e rest ih =>
      by_cases he : e.1 = name
      · simpa [removeName, he] using ih
      · simpa [removeName, lookupName, he] using ih

/-- Clearing a name leaves zero registrations for it in the table. -/
theorem countName_removeName {H : Type} (name : String) (t : HandlerTable H) :
    countName name (removeName name t) = 0 := by
  induction t with
  | nil => rfl
  | cons e rest ih =>
      by_cases he : e.1 = name
      · simpa [removeName, he] using ih
      · simpa [removeName, countName, he] using ih

/-- Claim C1: calling respond twice on one handle delivered to a handler
(so not yet redeemed): the first call returns success when the transport
accepts the reply, and the second call fails with `HandleAlreadyRedeemed` —
it never silently succeeds, and being a total function it cannot crash. -/
theorem respond_twice_second_fails {V B : Type} (c : Codec V B)
    (st : RespondState B) (h : ResponseHandle) (m m' : Option V)
    (hfresh : h ∉ st.redeemed) :
    (fl_basic_message_channel_respond c true st h m).1 = Except.ok () ∧
    (fl_basic_message_channel_respond c true
        (fl_basic_message_channel_respond c true st h m).2 h m').1 =
      Except.error ChannelError.handleAlreadyRedeemed := by
  constructor
  · simp [fl_basic_message_channel_respond, hfresh]
  · simp [fl_basic_message_channel_respond, hfresh]

/-- Concrete witness for C1: a fresh handle on an empty respond state. -/
theorem respond_twice_second_fails_witness :
    (fl_basic_message_channel_respond identityCodec true ⟨[], []⟩ 0 (some "ack")).1 =
      Except.ok () ∧
    (fl_basic_message_channel_respond identityCodec true
        (fl_basic_message_channel_respond identityCodec true ⟨[], []⟩ 0 (some "ack")).2
        0 (some "ack2")).1 =
      Except.error ChannelError.handleAlreadyRedeemed :=
  respond_twice_second_fails identityCodec ⟨[], []⟩ 0 (some "ack") (some "ack2")
    (by decide)

/-- Claim C2: on the channel named echo with the identity codec and a
handler that replies with the same message it received, sending the value
hello resolves the send's completion to the value hello. -/
theorem echo_send_hello_resolves_hello :
    echoRoundTrip "hello" = SendStatus.resolved (Except.ok (some "hello")) := by
  rfl

/-- Claim C3: a cancellation token firing while the send is still pending
resolves it to `Cancelled` with exactly one continuation invocation, and a
reply delivered afterwards is a no-op; symmetrically, a reply delivered
first makes a later cancellation a no-op — exactly one of the two wins and
the loser never re-resolves the continuation. -/
theorem cancel_before_reply_wins {V B C : Type} (c : Codec V B)
    (result : Except ChannelError (Option B)) (p : PendingOp (Option V) C)
    (hp : p.status = SendStatus.pending) :
    (cancelPendingSend p).status =
        SendStatus.resolved (Except.error ChannelError.cancelled) ∧
    (cancelPendingSend p).invocations = p.invocations ++
        (match p.callback with
         | some cb => [(cb, Except.error ChannelError.cancelled)]
         | none => []) ∧
    deliverTransportResult c result (cancelPendingSend p) = cancelPendingSend p ∧
    cancelPendingSend (deliverTransportResult c result p) =
        deliverTransportResult c result p := by
  refine ⟨?_, ?_, ?_, ?_⟩ <;>
    simp [cancelPendingSend, deliverTransportResult, resolvePending, hp]

/-- Concrete witness for C3: a pending send with callback token 0,
cancelled, then offered an empty transport reply. -/
theorem cancel_before_reply_wins_witness :
    (cancelPendingSend
        (⟨some 0, SendStatus.pending, []⟩ : PendingOp (Option String) Nat)).status =
      SendStatus.resolved (Except.error ChannelError.cancelled) ∧
    deliverTransportResult identityCodec (Except.ok none)
        (cancelPendingSend
          (⟨some 0, SendStatus.pending, []⟩ : PendingOp (Option String) Nat)) =
      cancelPendingSend
        (⟨some 0, SendStatus.pending, []⟩ : PendingOp (Option String) Nat) :=
  ⟨(cancel_before_reply_wins identityCodec (Except.ok none)
      ⟨some 0, SendStatus.pending, []⟩ rfl).1,
   (cancel_before_reply_wins identityCodec (Except.ok none)
      ⟨some 0, SendStatus.pending, []⟩ rfl).2.2.1⟩

/-- Claim C4: for every codec satisfying the round-trip contract of the
design and every value encodable by it, decoding the encoding of the value
yields the value again, independently of any channel. -/
theorem codec_decode_encode_round_trip {V B : Type} (c : Codec V B)
    (hc : c.RoundTrip) (v : V) : c.decode (c.encode v) = Except.ok v :=
  hc v

/-- Concrete witness for C4: the identity codec satisfies the round-trip
contract, instantiated at the value of the echo scenario. -/
theorem codec_decode_encode_round_trip_witness :
    identityCodec.decode (identityCodec.encode "hello") = Except.ok "hello" :=
  codec_decode_encode_round_trip identityCodec (fun _ => rfl) "hello"

/-- Claim C5: on transport success with reply bytes present, the completion
operation returns the codec-decoded reply value when decoding succeeds, and
resolves to a decode error delivered to the awaiting caller when decoding
fails; the operation is a total function applying the codec once, so it
neither crashes nor re-decodes. -/
theorem send_finish_decodes_reply {V B : Type} (c : Codec V B) (bytes : B) :
    (∀ v, c.decode bytes = Except.ok v →
      fl_basic_message_channel_send_on_channel_finish c (Except.ok (some bytes)) =
        Except.ok (some v)) ∧
    (∀ msg, c.decode bytes = Except.error msg →
      fl_basic_message_channel_send_on_channel_finish c (Except.ok (some bytes)) =
        Except.error (ChannelError.decodeError msg)) := by
  constructor
  · intro v hv
    simp [fl_basic_message_channel_send_on_channel_finish, hv]
  · intro msg hmsg
    simp [fl_basic_message_channel_send_on_channel_finish, hmsg]

/-- Concrete witness for C5: a codec rejecting the empty buffer decodes a
non-empty reply and surfaces an error on the empty reply. -/
theorem send_finish_decodes_reply_witness :
    fl_basic_message_channel_send_on_channel_finish nonEmptyStringCodec
        (Except.ok (some "hello")) = Except.ok (some "hello") ∧
    fl_basic_message_channel_send_on_channel_finish nonEmptyStringCodec
        (Except.ok (some "")) = Except.error (ChannelError.decodeError "empty buffer") :=
  ⟨(send_finish_decodes_reply nonEmptyStringCodec "hello").1 "hello" rfl,
   (send_finish_decodes_reply nonEmptyStringCodec "").2 "empty buffer" rfl⟩

/-- Claim C6: the header declares exactly one send-completion operation, but
under the name fl_basic_message_channel_send_on_channel_finish, while its
own doc comment and its usage example both invoke
fl_basic_message_channel_send_finish, a name the header never declares: a
single completion path exists and the declaration's name contradicts the
header's own documentation. -/
theorem finish_name_mismatch :
    headerDeclaredFunctions.filter isFinishDeclaration =
        ["fl_basic_message_channel_send_on_channel_finish"] ∧
    finishDocCommentName = finishUsageExampleName ∧
    finishUsageExampleName ∉ headerDeclaredFunctions := by
  refine ⟨by decide, by rfl, by decide⟩

/-- Claim C7: the table holds at most one registration per name: setting a
handler yields exactly one registration for the name, a replacement
discards the previous handler, setting none unregisters the name so inbound
dispatch performs no invocation, and the name can then be registered again
with a different handler. -/
theorem set_message_handler_single_registration {V B H : Type} (c : Codec V B)
    (name : String) (t : HandlerTable H) (h1 h2 : H) (bytes : B) :
    countName name (fl_basic_message_channel_set_message_handler name (some h1) t) = 1 ∧
    lookupName name (fl_basic_message_channel_set_message_handler name (some h2)
        (fl_basic_message_channel_set_message_handler name (some h1) t)) = some h2 ∧
    dispatchMessage c name (fl_basic_message_channel_set_message_handler name none
        (fl_basic_message_channel_set_message_handler name (some h1) t)) bytes = none ∧
    lookupName name (fl_basic_message_channel_set_message_handler name (some h2)
        (fl_basic_message_channel_set_message_handler name none
          (fl_basic_message_channel_set_message_handler name (some h1) t))) = some h2 := by
  refine ⟨?_, ?_, ?_, ?_⟩ <;>
    simp [fl_basic_message_channel_set_message_handler, countName, lookupName,
      dispatchMessage, removeName, countName_removeName, lookupName_removeName]

/-- Claim C8: construction performs no transport-side registration — the
per-name callback table comes back unchanged — construction fails exactly
when the name is empty, and registration on the transport happens only once
a handler is set. -/
theorem new_performs_no_registration {V B H : Type} (t : HandlerTable H)
    (name : String) (codec : Codec V B) (h : H) :
    (fl_basic_message_channel_new t name codec).2 = t ∧
    ((fl_basic_message_channel_new t name codec).1 = none ↔ name = "") ∧
    lookupName name
        (fl_basic_message_channel_set_message_handler name (some h) t) = some h := by
  by_cases hn : name = "" <;>
    simp [fl_basic_message_channel_new, fl_basic_message_channel_set_message_handler,
      lookupName, hn]

/-- Claim C9: with a handler registered for the channel's name, running the
serialized dispatch stream over the whole receive queue empties it and
invokes that handler on exactly the received messages, in exactly the order
the transport received them. -/
theorem inbound_delivery_in_order {V B H : Type} (c : Codec V B) (name : String)
    (t : HandlerTable H) (h : H) (st : InboundState B V H)
    (hreg : lookupName name t = some h) :
    (inboundRun c name t st.queue.length st).queue = [] ∧
    (inboundRun c name t st.queue.length st).log =
      st.log ++ st.queue.map (fun bytes => (h, c.decode bytes)) := by
  obtain ⟨q, log⟩ := st
  induction q generalizing log with
  | nil => simp [inboundRun]
  | cons bytes rest ih =>
      have step : inboundStep c name t ⟨bytes :: rest, log⟩ =
          ⟨rest, log ++ [(h, c.decode bytes)]⟩ := by
        simp [inboundStep, dispatchMessage, hreg]
      have run : inboundRun c name t (bytes :: rest).length ⟨bytes :: rest, log⟩ =
          inboundRun c name t rest.length ⟨rest, log ++ [(h, c.decode bytes)]⟩ := by
        simp [inboundRun, step]
      rw [run]
      have := ih (log ++ [(h, c.decode bytes)])
      simpa using this

/-- Concrete witness for C9: two inbound messages on the echo channel with
handler token 7 registered are delivered in arrival order. -/
theorem inbound_delivery_in_order_witness :
    (inboundRun identityCodec "echo" [("echo", 7)]
        ((⟨["a", "b"], []⟩ : InboundState String String Nat)).queue.length
        ⟨["a", "b"], []⟩).queue = [] ∧
    (inboundRun identityCodec "echo" [("echo", 7)]
        ((⟨["a", "b"], []⟩ : InboundState String String Nat)).queue.length
        ⟨["a", "b"], []⟩).log =
      (⟨["a", "b"], []⟩ : InboundState String String Nat).log ++
        (⟨["a", "b"], []⟩ : InboundState String String Nat).queue.map
          (fun bytes => (7, identityCodec.decode bytes)) :=
  inbound_delivery_in_order identityCodec "echo" [("echo", 7)] 7
    ⟨["a", "b"], []⟩ (by decide)

/-- Claim C10: sending with a null completion callback is valid: the message
is still encoded and handed to the transport tagged with the channel name,
and resolving the resulting pending operation — with a reply or an error —
invokes no continuation; the model functions are total, so nothing
crashes. -/
theorem send_null_callback_valid {V B C : Type} (c : Codec V B) (name : String)
    (message : V) (outbox : List (String × B))
    (r : Except ChannelError (Option V)) :
    (fl_basic_message_channel_send c name message (none : Option C) outbox).1 =
        outbox ++ [(name, c.encode message)] ∧
    (resolvePending r
        (fl_basic_message_channel_send c name message
          (none : Option C) outbox).2).invocations = [] := by
  exact ⟨rfl, rfl⟩
